import Mathlib

/-!
Shallow embedding of the EAS-Appliance-Availability core (src/bsh.rs,
src/subzero.rs, src/miele.rs, src/lib.rs).  External effects (HTTP calls,
file system, the headless-browser login, the JWT decode of the external
auth crate, the Excel reader and the external fuzzy matcher) are modelled
as explicit environment records of oracles; everything the repository's
own code does with their results is translated directly from the source.
Rust `panic!` / `.expect` / `.unwrap` failures are modelled by an explicit
`panic` constructor of the result type; `Result::Err` by `err`.
-/

/-- A browser cookie as used by the adapters: only `name` and `value` are
read by the repository's code (bsh.rs lines 42-47, subzero.rs lines 42-47). -/
structure Cookie where
  name : String
  value : String
deriving Repr, DecidableEq

/-- Result of a Rust function call: a normal return (`ok`), a
`Result::Err` (`err`), or an aborted call via `panic!`/`unwrap`/`expect`
(`panic`). -/
inductive RRes (α : Type) where
  | ok (a : α)
  | err (e : String)
  | panic (msg : String)
deriving Repr, DecidableEq

/-- The decoded BSH token of the external auth crate: the code only reads
its `bsh_cookies` field (bsh.rs line 42). -/
structure BSHJWTTokenClaims where
  bsh_cookies : List Cookie
deriving Repr, DecidableEq

/-- The decoded SubZero token of the external auth crate: the code only
reads its `subzero_cookies` field (subzero.rs line 42). -/
structure SubZeroJWTTokenClaims where
  subzero_cookies : List Cookie
deriving Repr, DecidableEq

/-- AvailabilityRequest (lib.rs lines 37-45); the `user` field is never
read by the three adapters and is omitted. -/
structure AvailabilityRequest where
  manufacturer : Option String
  showroom : Option String
  model_number : Option String
  warehouse : Option String
  utc_time : Option String
  availability : Option String
deriving Repr, DecidableEq

/-- Validity of a string as an HTTP header value, as checked by
`HeaderValue::from_str` of the http crate used by reqwest: every byte must
be visible ASCII (32..126) or horizontal tab.  A char with code point at
or above 128 encodes to bytes at or above 128, hence is invalid, so the
byte-wise check coincides with this char-wise one. -/
def headerValueOk (s : String) : Bool :=
  s.toList.all fun c => decide ((32 ≤ c.toNat ∧ c.toNat < 127) ∨ c.toNat = 9)

/-- Cookie-header assembly (bsh.rs lines 40-49, subzero.rs lines 40-49):
start from the empty string and, for each cookie of the jar in order,
append its name, `=`, its value, and `"; "`. -/
def cookieHeader (jar : List Cookie) : String :=
  jar.foldl (fun acc c => acc ++ c.name ++ "=" ++ c.value ++ "; ") ""

/-- Spec-side restatement of the cookie-header claim: the concatenation of
the `name=value; ` pair of every cookie, in jar order. -/
def cookieHeaderSpec (jar : List Cookie) : String :=
  String.join (jar.map fun c => c.name ++ "=" ++ c.value ++ "; ")

/-- State of a persisted session-cache file as seen by the token readers
(bsh.rs lines 176-187, subzero.rs lines 78-92): opening the file can fail,
parsing its contents as JSON can fail, the parsed JSON can lack a string
`token` field, or a token string is present. -/
inductive CacheFileState where
  | openFail (e : String)
  | parseFail (e : String)
  | noTokenField
  | token (t : String)
deriving Repr, DecidableEq

/-- get_bsh_token (bsh.rs lines 176-187): every failure of opening,
parsing, or field lookup is returned as an `Except.error`; on success the
external `BSHJWTTokenClaims::decode` (modelled by the `decode` oracle) is
applied to the token string and its result returned unchanged. -/
def get_bsh_token (fs : CacheFileState)
    (decode : String → Except String BSHJWTTokenClaims) :
    Except String BSHJWTTokenClaims :=
  match fs with
  | .openFail e => .error ("Failed to open bsh_cookies.json: " ++ e)
  | .parseFail e => .error ("Failed to parse bsh_cookies.json: " ++ e)
  | .noTokenField => .error "Failed to get token from bsh_cookies.json"
  | .token t => decode t

/-- get_subzero_token (subzero.rs lines 78-92): same structure as
`get_bsh_token` with the SubZero messages and decoder. -/
def get_subzero_token (fs : CacheFileState)
    (decode : String → Except String SubZeroJWTTokenClaims) :
    Except String SubZeroJWTTokenClaims :=
  match fs with
  | .openFail e => .error ("Failed to open SubZero token file: " ++ e)
  | .parseFail e => .error ("Failed to parse SubZero token file: " ++ e)
  | .noTokenField => .error "Failed to get SubZero token from file."
  | .token t => decode t

/-- Outcome of the token-acquisition prologue shared by bsh.rs lines 27-38
and subzero.rs lines 27-37: a token was obtained, or the call aborts hard
(`fatal`: a propagated `Err` for BSH, a panic for SubZero), or a
non-fatal descriptive message is returned as the call's answer. -/
inductive TokenStep (τ : Type) where
  | tok (t : τ)
  | fatal (e : String)
  | msg (s : String)
deriving Repr

/-- Environment of `bsh_availability`: results of its external calls.
`tokenRead1`/`tokenRead2` are the two possible `get_bsh_token` calls,
`loginResult` the `bsh_login` call (its `Ok` bool is discarded by the
caller), `dataStr` the serialized simulate body, `rootResp` the GET of the
service root (transport error, or a response whose optional
`x-csrf-token` header value converts to a string or fails to), `simSend`
the simulate POST transport, `simText` the response body read, and
`simParse` the JSON parse plus extraction of
`d.SOSimulateToItem.results[0].AvailBackorder` rendered with
`Value::to_string`. -/
structure BshEnv where
  tokenRead1 : Except String BSHJWTTokenClaims
  loginResult : Except String Bool
  tokenRead2 : Except String BSHJWTTokenClaims
  dataStr : String
  rootResp : Except String (Option (Except String String))
  simSend : Except String Unit
  simText : Except String String
  simParse : String → Except String String

/-- Token-acquisition prologue of bsh_availability (bsh.rs lines 27-38),
instrumented with the number of `bsh_login` calls and of `get_bsh_token`
calls made: read the cache; on failure log in (an `Err` of the login is
propagated by `?` as a fatal error), then re-read the cache once; a
second read failure becomes the non-fatal answer string. -/
def bsh_token_acquire (env : BshEnv) :
    TokenStep BSHJWTTokenClaims × Nat × Nat :=
  match env.tokenRead1 with
  | .ok t => (.tok t, 0, 1)
  | .error _ =>
    match env.loginResult with
    | .error e => (.fatal e, 1, 1)
    | .ok _ =>
      match env.tokenRead2 with
      | .ok t => (.tok t, 1, 2)
      | .error e => (.msg ("Faild to login to BSH website: " ++ e), 1, 2)

/-- Single-pass, left-to-right, non-overlapping removal of the two-char
sequence `a b`, the semantics of Rust's `str::replace("ab", "")` for a
two-character pattern (bsh.rs lines 151, 156). -/
def removePair (a b : Char) : List Char → List Char
  | [] => []
  | [c] => [c]
  | c :: d :: cs =>
    if c = a ∧ d = b then removePair a b cs
    else c :: removePair a b (d :: cs)

/-- Removal of every occurrence of the char `a`, the semantics of Rust's
`str::replace('a', "")` (bsh.rs lines 152, 157, 161). -/
def removeChar (a : Char) (cs : List Char) : List Char :=
  cs.filter fun c => c != a

/-- Whether the two-char sequence `a b` occurs, the semantics of Rust's
`str::contains("ab")` (bsh.rs lines 150, 155). -/
def containsPair (a b : Char) : List Char → Bool
  | [] => false
  | [_] => false
  | c :: d :: cs => (c == a && d == b) || containsPair a b (d :: cs)

/-- Rust `str::len`: the UTF-8 byte length (bsh.rs line 164). -/
def utf8Len (cs : List Char) : Nat :=
  (cs.map Char.utf8Size).sum

/-- The fixed sentinel of bsh.rs line 165 (sic the source's spelling). -/
def bshSentinel : List Char := "Model availablility not found.".toList

/-- The guarded cleanup of bsh.rs lines 150-162: if the string contains an
escaped or a literal newline, replace the escaped then the literal ones by
nothing; same for carriage returns; then remove spaces if any. -/
def bsh_clean (cs : List Char) : List Char :=
  let cs1 := if containsPair '\\' 'n' cs || cs.contains '\n'
             then removeChar '\n' (removePair '\\' 'n' cs) else cs
  let cs2 := if containsPair '\\' 'r' cs1 || cs1.contains '\r'
             then removeChar '\r' (removePair '\\' 'r' cs1) else cs1
  if cs2.contains ' ' then removeChar ' ' cs2 else cs2

/-- Post-processing of the extracted availability value (bsh.rs lines
150-168): clean it, then if the cleaned value is shorter than 10 bytes
substitute the fixed sentinel, else return the cleaned value verbatim. -/
def bsh_postprocess_list (cs : List Char) : List Char :=
  if utf8Len (bsh_clean cs) < 10 then bshSentinel else bsh_clean cs

/-- String-level wrapper of the availability post-processing. -/
def bsh_postprocess (s : String) : String :=
  String.mk (bsh_postprocess_list s.toList)

/-- Spec-side cleanup, following the claim's words: remove the escaped
newline sequences, the literal newlines, the escaped carriage-return
sequences, the literal carriage returns, and all spaces. -/
def bsh_clean_spec (cs : List Char) : List Char :=
  removeChar ' '
    (removeChar '\r' (removePair '\\' 'r'
      (removeChar '\n' (removePair '\\' 'n' cs))))

/-- Spec-side post-processing, following the claim's words: if the cleaned
string has fewer than 10 bytes the fixed sentinel, else the cleaned string
verbatim. -/
def bsh_postprocess_spec (cs : List Char) : List Char :=
  if utf8Len (bsh_clean_spec cs) < 10 then bshSentinel else bsh_clean_spec cs

/-- The x-csrf-token value computed from the service-root response header
(bsh.rs lines 72-79): if the header is absent, the literal string
`Failed to get x_csrf_token`; if present, its string conversion or a
descriptive message when the conversion fails.  Every arm is `Ok`, so the
trailing `?` of the source never propagates an error here. -/
def bsh_x_csrf_of (hdr : Option (Except String String)) : String :=
  match hdr with
  | none => "Failed to get x_csrf_token"
  | some (.ok v) => v
  | some (.error e) => "Failed to convert x_csrf_token to string: " ++ e

/-- The simulate POST and its response handling (bsh.rs lines 104-170),
entered with the cookie header string and the x-csrf-token value: header
construction failures, the POST transport failure, the body read failure
and the JSON parse failure each become the `Ok` answer string; on success
the extracted availability value is post-processed.  The constant
`application/json` header values of lines 119-128 always convert
successfully and are not modelled. -/
def bsh_simulate_stage (env : BshEnv) (cookies x_csrf_token : String) :
    RRes String :=
  if ¬ headerValueOk cookies then
    .ok "Failed to create cookie header: invalid header value"
  else if ¬ headerValueOk x_csrf_token then
    .ok "Failed to create x_csrf_token header: invalid header value"
  else if ¬ headerValueOk env.dataStr then
    .ok "Failed to create data header: invalid header value"
  else
    match env.simSend with
    | .error e => .ok ("Failed to get availability response: " ++ e)
    | .ok _ =>
      match env.simText with
      | .error e => .ok ("Failed to get availability response text: " ++ e)
      | .ok txt =>
        match env.simParse txt with
        | .error e => .ok ("Failed to parse availability response text: " ++ e)
        | .ok availRaw => .ok (bsh_postprocess availRaw)

/-- bsh_availability (bsh.rs lines 26-171): acquire the token (a login
`Err` is the only `Err` of the whole function), build the cookie header,
fetch the x-csrf-token from the service root (transport failure becomes
the answer string; an absent header becomes the literal fallback value),
then run the simulate stage.  The constant `" Fetch"` header value of
line 62 always converts successfully and is not modelled. -/
def bsh_availability (env : BshEnv) : RRes String :=
  match (bsh_token_acquire env).1 with
  | .fatal e => .err e
  | .msg s => .ok s
  | .tok t =>
    let cookies := cookieHeader t.bsh_cookies
    if ¬ headerValueOk cookies then
      .ok "Failed to create cookie header: invalid header value"
    else
      match env.rootResp with
      | .error e => .ok ("Failed to get x_csrf_token: " ++ e)
      | .ok hdr => bsh_simulate_stage env cookies (bsh_x_csrf_of hdr)

/-- The parsed HTML of the add-item response as the code inspects it
(subzero.rs lines 283-305): the `#myScrollTable` element may be absent,
its `tbody` may be absent, or the table body holds rows of cell contents
(`inner_html` of each `td`). -/
inductive AddPage where
  | noTable
  | noBody
  | rows (rs : List (List String))

/-- Environment of `subzero_availability`: results of its external calls.
`tokenRead1`/`tokenRead2` are the two possible `get_subzero_token` calls;
`loginOutcome` the `subzero_login` call, whose internal `unwrap`s make
`some m` a panic with message `m` and `none` a completed call;
`counts` the successive values reported by `subzero_get_number_of_items`
(whose own transport, body-read and selector failures all report 0);
`removeFail` the transport outcome of the successive delete POSTs of
`subzero_remove_item` (`some e` is a transport error); `suggest` the
autosuggest GET (transport or body-read failure, or the body text);
`addSend`/`addText`/`addPage` the add-item POST transport, body read and
parsed page, where the POST depends on the model number sent. -/
structure SubZeroEnv where
  tokenRead1 : Except String SubZeroJWTTokenClaims
  loginOutcome : Option String
  tokenRead2 : Except String SubZeroJWTTokenClaims
  counts : Nat → Nat
  removeFail : Nat → Option String
  suggest : Except String String
  addSend : String → Except String Unit
  addText : String → Except String String
  addPage : String → AddPage

/-- Token-acquisition prologue of subzero_availability (subzero.rs lines
27-37), instrumented with the number of `subzero_login` calls and of
`get_subzero_token` calls made: read the cache; on failure log in (a
login failure is a panic inside `subzero_login`), then re-read the cache
once; a second read failure becomes the answer string. -/
def subzero_token_acquire (env : SubZeroEnv) :
    TokenStep SubZeroJWTTokenClaims × Nat × Nat :=
  match env.tokenRead1 with
  | .ok t => (.tok t, 0, 1)
  | .error _ =>
    match env.loginOutcome with
    | some m => (.fatal m, 1, 1)
    | none =>
      match env.tokenRead2 with
      | .ok t => (.tok t, 1, 2)
      | .error e => (.msg ("Failed to get SubZero token: " ++ e), 1, 2)

/-- Outcome of the cart drain loop: the number of delete calls issued, or
a panic raised by a delete whose transport failed. -/
inductive DrainOut where
  | done (removes : Nat)
  | panicked (msg : String)
deriving Repr, DecidableEq

/-- The cart drain loop of subzero.rs lines 52-56, with an explicit fuel
bound (the source has none): read the item count; while it is positive,
call `subzero_remove_item` and re-read.  `k` is the number of reads (and
of removes) already performed.  A remove whose cookie header is invalid
returns silently before the POST (subzero.rs lines 192-198); otherwise a
transport failure of the delete POST panics (subzero.rs line 217).
`none` means the fuel ran out, i.e. the source loop would still be
running after that many iterations. -/
def subzero_drain (env : SubZeroEnv) (cookies : String) :
    Nat → Nat → Option DrainOut
  | 0, _ => none
  | fuel + 1, k =>
    if env.counts k = 0 then some (.done k)
    else
      if headerValueOk cookies then
        match env.removeFail k with
        | some e =>
          some (.panicked ("Failed to remove item from cart: " ++ e))
        | none => subzero_drain env cookies fuel (k + 1)
      else subzero_drain env cookies fuel (k + 1)

/-- Rust `str::split(sep)` on a char separator, over the char list: the
empty input yields one empty segment, and each separator occurrence
starts a new segment. -/
def splitOnChar (sep : Char) : List Char → List (List Char)
  | [] => [[]]
  | c :: cs =>
    if c = sep then [] :: splitOnChar sep cs
    else
      match splitOnChar sep cs with
      | [] => [[c]]
      | h :: t => (c :: h) :: t

/-- The first segment of a split, i.e. Rust's
`s.split(sep).collect::<Vec<_>>()[0]` (subzero.rs line 349); the split of
any string is non-empty, so the index never panics and the default is
never used. -/
def firstSplitSegment (sep : Char) (s : String) : String :=
  String.mk ((splitOnChar sep s.toList).headD [])

/-- subzero_validate_model_number (subzero.rs lines 308-355): the
constant accept, user-agent and host header values always convert
successfully and are not modelled; a cookie header conversion failure or
a transport/body-read failure of the autosuggest GET becomes the returned
string; otherwise the segment of the body before the first `\x7b` is
returned as the validated model number. -/
def subzero_validate_model_number (env : SubZeroEnv)
    (model_number cookies : String) : String :=
  if ¬ headerValueOk cookies then
    "Faild to add cookies to header: invalid header value"
  else
    match env.suggest with
    | .error e => "Failed to get suggested items: " ++ e
    | .ok body =>
      let _ := model_number
      firstSplitSegment '\x7b' body

/-- subzero_add_item (subzero.rs lines 232-306): a cookie header
conversion failure, the POST transport failure or the body-read failure
each becomes the returned string (the constant user-agent and
content-type header values always convert); otherwise the parsed page is
scanned: starting from `Error finding item.`, every row of the table body
overwrites the answer with its cell of index 7 when it has one. -/
def subzero_add_item (env : SubZeroEnv) (model_number cookies : String) :
    String :=
  if ¬ headerValueOk cookies then
    "Faild to add cookies to header: invalid header value"
  else
    match env.addSend model_number with
    | .error e => "Failed to add item to cart: " ++ e
    | .ok _ =>
      match env.addText model_number with
      | .error e => "Failed to get response data: " ++ e
      | .ok _ =>
        match env.addPage model_number with
        | .noTable => "Error finding item."
        | .noBody => "Error finding item."
        | .rows rs =>
          rs.foldl
            (fun avail row =>
              row.enum.foldl
                (fun a p => if p.1 = 7 then p.2 else a) avail)
            "Error finding item."

/-- subzero_availability (subzero.rs lines 25-69): acquire the token (a
login failure panics; a second cache-read failure becomes the answer
string), build the cookie header, drain the cart, validate the requested
model number through the autosuggest endpoint and overwrite the request's
model number with the result, then add the item and return its
availability.  The second `None` arm of the source's final match (line
67) is unreachable because the model number was just set to `Some`.
`none` means the drain loop ran out of fuel, i.e. the source would not
have terminated within that many iterations. -/
def subzero_availability (env : SubZeroEnv) (req : AvailabilityRequest)
    (fuel : Nat) : Option (RRes String) :=
  match (subzero_token_acquire env).1 with
  | .fatal m => some (.panic m)
  | .msg s => some (.ok s)
  | .tok t =>
    let cookies := cookieHeader t.subzero_cookies
    match subzero_drain env cookies fuel 0 with
    | none => none
    | some (.panicked m) => some (.panic m)
    | some (.done _) =>
      match req.model_number with
      | none => some (.ok "No model number provided")
      | some mn =>
        let validated := subzero_validate_model_number env mn cookies
        some (.ok (subzero_add_item env validated cookies))

/-- MieleAppliance (miele.rs lines 216-233), with the f32 `score` field
modelled as an integer: the scores the code stores in it are sums of two
integer fuzzy-matcher results (or 0), and only their order is used. -/
structure MieleAppliance where
  timestamp : String
  sku : String
  upc : String
  category : String
  subcategory : String
  model_number : String
  description : String
  current_umrp : String
  new_umrp : String
  dealer_cost_level : String
  warehouse_number : String
  available_qty : String
  sales_status : String
  next_available_qty : String
  next_available_date : String
  score : Int
deriving Repr, DecidableEq

/-- The all-empty appliance with score 0 used as the row accumulator and
as the initial best match (miele.rs lines 96-113 and 150-167). -/
def defaultMieleAppliance : MieleAppliance :=
  { timestamp := "", sku := "", upc := "", category := "",
    subcategory := "", model_number := "", description := "",
    current_umrp := "", new_umrp := "", dealer_cost_level := "",
    warehouse_number := "", available_qty := "", sales_status := "",
    next_available_qty := "", next_available_date := "", score := 0 }

/-- Assignment of one cell value to the appliance field selected by the
lower-cased header name (miele.rs lines 127-144); unknown headers leave
the appliance unchanged. -/
def applyField (app : MieleAppliance) (header value : String) :
    MieleAppliance :=
  match header.toLower with
  | "timestamp" => { app with timestamp := value }
  | "sku#" => { app with sku := value }
  | "ean/upc" => { app with upc := value }
  | "category" => { app with category := value }
  | "subcategory" => { app with subcategory := value }
  | "model number" => { app with model_number := value }
  | "description" => { app with description := value }
  | "current umrp/map" => { app with current_umrp := value }
  | "new umrp/map" => { app with new_umrp := value }
  | "dealer cost level" => { app with dealer_cost_level := value }
  | "warehouse no" => { app with warehouse_number := value }
  | "available qty" => { app with available_qty := value }
  | "sales status" => { app with sales_status := value }
  | "next available qty" => { app with next_available_qty := value }
  | "next available date" => { app with next_available_date := value }
  | _ => app

/-- The header map built from row 0 (miele.rs lines 72-90): each header
cell value paired with its column index. -/
def mieleHeaderMap (headerRow : List String) : List (String × Nat) :=
  headerRow.enum.map fun p => (p.2, p.1)

/-- Parsing of one data row into an appliance (miele.rs lines 95-147):
start from the all-empty appliance and, for each cell, look up the header
of its column index (the empty name when absent) and assign the value to
the matching field. -/
def parseRow (headers : List (String × Nat)) (row : List String) :
    MieleAppliance :=
  row.enum.foldl
    (fun app p =>
      let header := ((headers.find? fun h => h.2 == p.1).map
        fun h => h.1).getD ""
      applyField app header p.2)
    defaultMieleAppliance

/-- The normalization applied to each matched field and to the decoded
query (miele.rs lines 172-174): lower-case, trim, and remove every
internal whitespace char. -/
def normalizeField (s : String) : String :=
  String.mk (s.toLower.trim.toList.filter fun c => !c.isWhitespace)

/-- The numeric value of one fuzzy-matcher call (miele.rs lines 177-187):
the returned score, or 0 when the matcher returns no alignment. -/
def scoreOf (r : Option Int) : Int := r.getD 0

/-- The combined score of one appliance against the normalized query
(miele.rs lines 176-189): fuzzy score of the normalized model number plus
fuzzy score of the normalized description, with `fuzzy` the external
`SkimMatcherV2::fuzzy_match` oracle. -/
def mieleCombinedScore (fuzzy : String → String → Option Int)
    (q : String) (a : MieleAppliance) : Int :=
  scoreOf (fuzzy (normalizeField a.model_number) q) +
    scoreOf (fuzzy (normalizeField a.description) q)

/-- One step of the best-match accumulation (miele.rs lines 191-193): the
candidate replaces the current best exactly when its score is strictly
greater. -/
def mieleStep (best a : MieleAppliance) : MieleAppliance :=
  if best.score < a.score then a else best

/-- The best-match selection loop (miele.rs lines 150-194) over the rows
with their scores already stored: fold `mieleStep` from the all-empty
best match. -/
def mieleSelect (apps : List MieleAppliance) : MieleAppliance :=
  apps.foldl mieleStep defaultMieleAppliance

/-- Maximum of the scores of a list of appliances on top of a base
value. -/
def maxScoreFrom (x : Int) (apps : List MieleAppliance) : Int :=
  apps.foldl (fun m a => max m a.score) x

/-- Spec-side restatement of the selection claim: when no row's score
exceeds 0 nothing is selected (the all-empty record remains); otherwise
the selected record is the first one, in iteration order, whose score
equals the maximal score. -/
def mieleSelectSpec (apps : List MieleAppliance) : MieleAppliance :=
  if maxScoreFrom 0 apps ≤ 0 then defaultMieleAppliance
  else ((apps.find? fun a => a.score == maxScoreFrom 0 apps).getD
    defaultMieleAppliance)

/-- The final message (miele.rs lines 196-203): the unknown-availability
sentence when the best match's availability date is empty, the found
sentence otherwise. -/
def mieleMessage (best : MieleAppliance) : String :=
  if best.next_available_date = "" then
    "Next avalability for " ++ best.model_number ++ " is unknown."
  else
    "Found: " ++ best.model_number ++ ", Available: " ++
      best.next_available_date

/-- Environment of `miele_availability`: results of its external calls.
`download` is the spreadsheet GET, `fileCreate`/`respBytes`/`fileWrite`
the local persistence steps, `openExcel` the workbook open, `sheet` the
worksheet lookup by name returning the rows of cell values (each cell
already rendered to a string as by miele.rs lines 78-84, a total
conversion), `decode` the external `urlencoding::decode` of the query
(`none` when it fails), and `fuzzy` the external fuzzy matcher. -/
structure MieleEnv where
  download : Except String Unit
  fileCreate : Except String Unit
  respBytes : Except String Unit
  fileWrite : Except String Unit
  openExcel : Except String Unit
  sheet : String → Except String (List (List String))
  decode : String → Option String
  fuzzy : String → String → Option Int

/-- miele_availability (miele.rs lines 21-209): spreadsheet download,
file creation, body read, file write and workbook open failures each
panic; a missing warehouse or model number returns a message; a worksheet
lookup failure returns `Error: ...`; an empty sheet returns the
failed-row message; otherwise the data rows are parsed with the header
map of row 0, and, when there is at least one row, the query is
URL-decoded (a decode failure panics via `expect`, inside the first loop
iteration) and normalized, every row is scored, the best match selected
by strict comparison, and the final message built from it.  With no data
rows the loop never runs, so neither decode nor matcher is called and
the all-empty best match yields the unknown-availability message. -/
def miele_availability (env : MieleEnv) (req : AvailabilityRequest) :
    RRes String :=
  match env.download with
  | .error e =>
    .panic ("Failed to get Miele appliance availability spreadsheet: " ++ e)
  | .ok _ =>
  match env.fileCreate with
  | .error e =>
    .panic ("Failed to create Miele appliance availability spreadsheet: " ++ e)
  | .ok _ =>
  match env.respBytes with
  | .error e =>
    .panic ("Failed to get Miele appliance availability spreadsheet: " ++ e)
  | .ok _ =>
  match env.fileWrite with
  | .error e =>
    .panic ("Failed to write Miele appliance availability spreadsheet to file: "
      ++ e)
  | .ok _ =>
  match env.openExcel with
  | .error e =>
    .panic ("Failed to open Miele appliance availability spreadsheet: " ++ e)
  | .ok _ =>
  match req.warehouse with
  | none => .ok "No warehouse found."
  | some warehouse =>
  match req.model_number with
  | none => .ok "No model number found."
  | some model_number =>
  match env.sheet warehouse with
  | .error err => .ok ("Error: " ++ err)
  | .ok allRows =>
  match allRows with
  | [] => .ok "Failed to get row from Miele appliance availability spreadsheet."
  | headerRow :: dataRows =>
    let apps := dataRows.map (parseRow (mieleHeaderMap headerRow))
    match apps with
    | [] => .ok (mieleMessage defaultMieleAppliance)
    | _ :: _ =>
      match env.decode model_number with
      | none => .panic "Cannot decode model number."
      | some decoded =>
        let q := normalizeField decoded
        let scored := apps.map fun a =>
          { a with score := mieleCombinedScore env.fuzzy q a }
        .ok (mieleMessage (mieleSelect scored))

/-- A one-cookie BSH token used by concrete scenarios. -/
def bshTokenA : BSHJWTTokenClaims := ⟨[⟨"SAP_SESSIONID", "abc123"⟩]⟩

/-- BSH scenario: stale cache and failing login. -/
def bshEnvLoginErr : BshEnv :=
  { tokenRead1 := .error "stale", loginResult := .error "bad credentials",
    tokenRead2 := .error "still stale", dataStr := "d",
    rootResp := .ok none, simSend := .ok (), simText := .ok "t",
    simParse := fun _ => .error "parse" }

/-- BSH scenario: stale cache, successful login, corrupt cache afterwards. -/
def bshEnvSecondReadErr : BshEnv :=
  { tokenRead1 := .error "stale", loginResult := .ok true,
    tokenRead2 := .error "corrupt", dataStr := "d",
    rootResp := .ok none, simSend := .ok (), simText := .ok "t",
    simParse := fun _ => .error "parse" }

/-- BSH scenario: cached token, service root responding without an
x-csrf-token header. -/
def bshEnvNoCsrf : BshEnv :=
  { tokenRead1 := .ok bshTokenA, loginResult := .ok true,
    tokenRead2 := .error "unused", dataStr := "d",
    rootResp := .ok none, simSend := .ok (), simText := .ok "t",
    simParse := fun _ => .ok "\"W123/4567890\"" }

/-- SubZero scenario: cached empty-jar token, a cart stuck at one item,
and a delete POST whose transport fails. -/
def szEnvRemovePanics : SubZeroEnv :=
  { tokenRead1 := .ok ⟨[]⟩, loginOutcome := none,
    tokenRead2 := .error "unused", counts := fun _ => 1,
    removeFail := fun _ => some "connection reset", suggest := .ok "M",
    addSend := fun _ => .ok (), addText := fun _ => .ok "",
    addPage := fun _ => .noTable }

/-- SubZero scenario: cached empty-jar token, a cart reporting the counts
3, 2, 1, 0, healthy deletes, and a well-behaved autosuggest and
add-item exchange. -/
def szEnvDrain : SubZeroEnv :=
  { tokenRead1 := .ok ⟨[]⟩, loginOutcome := none,
    tokenRead2 := .error "unused",
    counts := fun k => (([3, 2, 1, 0] : List Nat).getD k 0),
    removeFail := fun _ => none,
    suggest := .ok "BI-36U\x7b\"raw\":1",
    addSend := fun _ => .ok (), addText := fun _ => .ok "",
    addPage := fun _ =>
      .rows [["BI-36U", "x", "x", "x", "x", "x", "x", "07/04/2025"]] }

/-- SubZero scenario: stale cache and a login that panics internally. -/
def szEnvLoginPanic : SubZeroEnv :=
  { tokenRead1 := .error "stale",
    loginOutcome := some "called unwrap on an Err value",
    tokenRead2 := .error "unused", counts := fun _ => 0,
    removeFail := fun _ => none, suggest := .ok "",
    addSend := fun _ => .ok (), addText := fun _ => .ok "",
    addPage := fun _ => .noTable }

/-- SubZero scenario: stale cache, completed login, corrupt cache
afterwards. -/
def szEnvSecondReadErr : SubZeroEnv :=
  { tokenRead1 := .error "stale", loginOutcome := none,
    tokenRead2 := .error "corrupt", counts := fun _ => 0,
    removeFail := fun _ => none, suggest := .ok "",
    addSend := fun _ => .ok (), addText := fun _ => .ok "",
    addPage := fun _ => .noTable }

/-- Miele scenario: all external steps succeed, a two-row worksheet, an
identity URL-decoder and a matcher that never aligns. -/
def mieleEnvNoMatch : MieleEnv :=
  { download := .ok (), fileCreate := .ok (), respBytes := .ok (),
    fileWrite := .ok (), openExcel := .ok (),
    sheet := fun _ =>
      .ok [["Model Number", "Next Available Date"], ["X123", ""]],
    decode := fun s => some s, fuzzy := fun _ _ => none }

/-- A Miele request for the Forest Park warehouse. -/
def reqMiele : AvailabilityRequest :=
  { manufacturer := some "miele", showroom := some "chicago",
    model_number := some "HBLP%20651RUC",
    warehouse := some "Forest Park, IL",
    utc_time := none, availability := none }

/-- A SubZero request. -/
def reqSZ : AvailabilityRequest :=
  { manufacturer := some "subzero", showroom := some "houston",
    model_number := some "BI-36U", warehouse := some "99432040",
    utc_time := none, availability := none }

theorem cookieHeader_eq_spec (jar : List Cookie) :
    cookieHeader jar = cookieHeaderSpec jar := by
  unfold cookieHeader cookieHeaderSpec String.join
  rw [List.foldl_map]
  congr 1
  funext acc c
  simp only [String.append_assoc]

/-- C4: for every cookie jar, the header-assembly loop produces exactly
the concatenation of the `name=value; ` pair of each cookie, one per
cookie, in the jar's order — no cookie omitted, none duplicated. -/
theorem C4_cookie_header :
    ∀ jar : List Cookie, cookieHeader jar = cookieHeaderSpec jar :=
  cookieHeader_eq_spec

/-- C8: for every cache-file state other than one holding a token string
(missing file, unreadable contents, malformed JSON, missing `token`
field), both token readers return an error value to their caller; no
such state reaches the decoder or escapes otherwise. -/
theorem C8_cache_read_absent :
    ∀ (fs : CacheFileState)
      (decB : String → Except String BSHJWTTokenClaims)
      (decS : String → Except String SubZeroJWTTokenClaims),
      (∀ t, fs ≠ .token t) →
      (∃ e, get_bsh_token fs decB = .error e) ∧
        (∃ e, get_subzero_token fs decS = .error e) := by
  intro fs decB decS h
  cases fs with
  | openFail e => exact ⟨⟨_, rfl⟩, ⟨_, rfl⟩⟩
  | parseFail e => exact ⟨⟨_, rfl⟩, ⟨_, rfl⟩⟩
  | noTokenField => exact ⟨⟨_, rfl⟩, ⟨_, rfl⟩⟩
  | token t => exact absurd rfl (h t)

theorem C8_witness :
    (∃ e, get_bsh_token (.openFail "No such file or directory")
      (fun _ => .error "never reached") = .error e) ∧
      (∃ e, get_subzero_token (.openFail "No such file or directory")
        (fun _ => .error "never reached") = .error e) :=
  C8_cache_read_absent (.openFail "No such file or directory")
    (fun _ => .error "never reached") (fun _ => .error "never reached")
    (fun t h => by cases h)

theorem subzero_drain_done_shift :
    ∀ (n : Nat) (env : SubZeroEnv) (cookies : String) (fuel k : Nat),
      (∀ i, i < n → env.counts (k + i) ≠ 0) →
      env.counts (k + n) = 0 →
      (∀ i, i < n → headerValueOk cookies = true →
        env.removeFail (k + i) = none) →
      n < fuel →
      subzero_drain env cookies fuel k = some (.done (k + n)) := by
  intro n
  induction n with
  | zero =>
    intro env cookies fuel k _ h0 _ hf
    cases fuel with
    | zero => omega
    | succ f =>
      have h0k : env.counts k = 0 := by simpa using h0
      simp [subzero_drain, h0k]
  | succ m ih =>
    intro env cookies fuel k hpos h0 hrm hf
    cases fuel with
    | zero => omega
    | succ f =>
      have hk : env.counts k ≠ 0 := by simpa using hpos 0 (by omega)
      have h1 : ∀ i, i < m → env.counts (k + 1 + i) ≠ 0 := by
        intro i hi
        have := hpos (i + 1) (by omega)
        have e : k + (i + 1) = k + 1 + i := by omega
        rwa [e] at this
      have h2 : env.counts (k + 1 + m) = 0 := by
        have e : k + (m + 1) = k + 1 + m := by omega
        rwa [e] at h0
      have h3 : ∀ i, i < m → headerValueOk cookies = true →
          env.removeFail (k + 1 + i) = none := by
        intro i hi hc
        have := hrm (i + 1) (by omega) hc
        have e : k + (i + 1) = k + 1 + i := by omega
        rwa [e] at this
      have hres := ih env cookies f (k + 1) h1 h2 h3 (by omega)
      have e : k + 1 + m = k + (m + 1) := by omega
      rw [e] at hres
      by_cases hc : headerValueOk cookies
      · have hr : env.removeFail k = none := by simpa using hrm 0 (by omega) hc
        simpa [subzero_drain, hk, hc, hr] using hres
      · simpa [subzero_drain, hk, hc] using hres

theorem subzero_drain_done_counts_zero :
    ∀ (env : SubZeroEnv) (cookies : String) (fuel k j : Nat),
      subzero_drain env cookies fuel k = some (.done j) →
      env.counts j = 0 := by
  intro env cookies fuel
  induction fuel with
  | zero => intro k j h; simp [subzero_drain] at h
  | succ f ih =>
    intro k j h
    by_cases h0 : env.counts k = 0
    · simp [subzero_drain, h0] at h
      rwa [← h]
    · by_cases hc : headerValueOk cookies
      · cases hr : env.removeFail k with
        | some e => simp [subzero_drain, h0, hc, hr] at h
        | none =>
          simp only [subzero_drain, h0, if_neg h0, hc, if_pos hc, hr] at h
          exact ih (k + 1) j h
      · simp only [subzero_drain, h0, if_neg h0, hc, if_neg hc] at h
        exact ih (k + 1) j h

theorem subzero_drain_never_zero :
    ∀ (env : SubZeroEnv) (cookies : String),
      (∀ i, env.counts i ≠ 0) →
      (∀ i, headerValueOk cookies = true → env.removeFail i = none) →
      ∀ fuel k, subzero_drain env cookies fuel k = none := by
  intro env cookies hc hrm fuel
  induction fuel with
  | zero => intro k; simp [subzero_drain]
  | succ f ih =>
    intro k
    by_cases hk : headerValueOk cookies
    · simp [subzero_drain, hc k, hk, hrm k hk, ih (k + 1)]
    · simp [subzero_drain, hc k, hk, ih (k + 1)]

/-- C2: the drain loop issues exactly `n` delete calls and stops when the
item counts reported by the server are nonzero `n` times and then zero;
the loop stops only at a reported count of zero; and with no iteration
cap, a count sequence that never reaches zero makes the loop run forever
(the fuel-indexed unfolding returns no result for any fuel). -/
theorem C2_drain_loop :
    (∀ (env : SubZeroEnv) (cookies : String) (n fuel : Nat),
      (∀ i, i < n → env.counts i ≠ 0) →
      env.counts n = 0 →
      (∀ i, i < n → headerValueOk cookies = true →
        env.removeFail i = none) →
      n < fuel →
      subzero_drain env cookies fuel 0 = some (.done n)) ∧
    (∀ (env : SubZeroEnv) (cookies : String) (fuel k j : Nat),
      subzero_drain env cookies fuel k = some (.done j) →
      env.counts j = 0) ∧
    (∀ (env : SubZeroEnv) (cookies : String),
      (∀ i, env.counts i ≠ 0) →
      (∀ i, headerValueOk cookies = true → env.removeFail i = none) →
      ∀ fuel k, subzero_drain env cookies fuel k = none) := by
  refine ⟨?_, subzero_drain_done_counts_zero, subzero_drain_never_zero⟩
  intro env cookies n fuel hpos h0 hrm hf
  have := subzero_drain_done_shift n env cookies fuel 0
    (by simpa using hpos) (by simpa using h0) (by simpa using hrm) hf
  simpa using this

theorem C2_witness :
    subzero_drain szEnvDrain "" 4 0 = some (.done 3) :=
  C2_drain_loop.1 szEnvDrain "" 3 4 (by decide) (by decide)
    (fun _ _ _ => rfl) (by decide)

theorem removePair_id_of_not_contains (a b : Char) :
    ∀ cs : List Char, containsPair a b cs = false → removePair a b cs = cs
  | [] => fun _ => rfl
  | [c] => fun _ => rfl
  | c :: d :: cs => fun h => by
    simp only [containsPair, Bool.or_eq_false_iff] at h
    have hne : ¬(c = a ∧ d = b) := by
      rintro ⟨rfl, rfl⟩
      simp at h
    simp only [removePair, if_neg hne]
    rw [removePair_id_of_not_contains a b (d :: cs) h.2]

theorem removeChar_id_of_not_mem (a : Char) (cs : List Char)
    (h : cs.contains a = false) : removeChar a cs = cs := by
  unfold removeChar
  apply List.filter_eq_self.mpr
  intro c hc
  have ha : a ∉ cs := by simpa using h
  simp only [bne_iff_ne, ne_eq]
  intro hca
  exact ha (hca ▸ hc)

theorem mem_of_mem_removePair (a b x : Char) :
    ∀ cs : List Char, x ∈ removePair a b cs → x ∈ cs
  | [] => fun h => h
  | [_] => fun h => h
  | c :: d :: cs => fun h => by
    simp only [removePair] at h
    split at h
    · exact List.mem_cons_of_mem _
        (List.mem_cons_of_mem _ (mem_of_mem_removePair a b x cs h))
    · rcases List.mem_cons.mp h with h1 | h2
      · exact h1 ▸ List.mem_cons_self _ _
      · exact List.mem_cons_of_mem _
          (mem_of_mem_removePair a b x (d :: cs) h2)

theorem mem_of_mem_removeChar (a x : Char) (cs : List Char)
    (h : x ∈ removeChar a cs) : x ∈ cs := by
  unfold removeChar at h
  exact List.mem_of_mem_filter h

theorem not_mem_removeChar (a : Char) (cs : List Char) :
    a ∉ removeChar a cs := by
  unfold removeChar
  intro h
  rcases List.mem_filter.mp h with ⟨_, hp⟩
  simp at hp

theorem guardedRemove_eq (a b x : Char) (cs : List Char) :
    (if containsPair a b cs || cs.contains x
     then removeChar x (removePair a b cs) else cs)
      = removeChar x (removePair a b cs) := by
  by_cases hg : (containsPair a b cs || cs.contains x) = true
  · rw [if_pos hg]
  · rw [if_neg hg]
    rw [Bool.not_eq_true, Bool.or_eq_false_iff] at hg
    rw [removePair_id_of_not_contains a b cs hg.1,
      removeChar_id_of_not_mem x cs hg.2]

theorem guardedSpace_eq (x : Char) (cs : List Char) :
    (if cs.contains x then removeChar x cs else cs) = removeChar x cs := by
  by_cases hg : cs.contains x = true
  · rw [if_pos hg]
  · rw [if_neg hg,
      removeChar_id_of_not_mem x cs (by rwa [Bool.not_eq_true] at hg)]

theorem bsh_clean_eq_spec (cs : List Char) :
    bsh_clean cs = bsh_clean_spec cs := by
  simp only [bsh_clean, bsh_clean_spec]
  rw [guardedRemove_eq, guardedRemove_eq, guardedSpace_eq]

/-- C5: for every extracted availability string, the BSH post-processing
equals the claim's pipeline — remove the escaped and the literal newline
sequences, the escaped and the literal carriage-return sequences, and
the space characters, each by a single left-to-right replacement pass —
and substitutes the fixed sentinel exactly when the cleaned value is
shorter than 10 bytes, returning the cleaned value verbatim otherwise;
in the verbatim case the result contains no space, no literal newline
and no literal carriage return. -/
theorem C5_postprocess :
    ∀ cs : List Char,
      bsh_postprocess_list cs = bsh_postprocess_spec cs ∧
      (10 ≤ utf8Len (bsh_clean cs) →
        ' ' ∉ bsh_postprocess_list cs ∧
        '\n' ∉ bsh_postprocess_list cs ∧
        '\r' ∉ bsh_postprocess_list cs) := by
  intro cs
  have heq : bsh_postprocess_list cs = bsh_postprocess_spec cs := by
    unfold bsh_postprocess_list bsh_postprocess_spec
    rw [bsh_clean_eq_spec]
  refine ⟨heq, fun hlen => ?_⟩
  have hout : bsh_postprocess_list cs = bsh_clean_spec cs := by
    rw [heq]
    unfold bsh_postprocess_spec
    rw [if_neg (by rw [← bsh_clean_eq_spec]; omega)]
  rw [hout]
  unfold bsh_clean_spec
  refine ⟨not_mem_removeChar ' ' _, ?_, ?_⟩
  · intro h
    have h2 := mem_of_mem_removeChar ' ' '\n' _ h
    have h3 := mem_of_mem_removeChar '\r' '\n' _ h2
    have h4 := mem_of_mem_removePair '\\' 'r' '\n' _ h3
    exact not_mem_removeChar '\n' _ h4
  · intro h
    have h2 := mem_of_mem_removeChar ' ' '\r' _ h
    exact not_mem_removeChar '\r' _ h2

theorem C5_witness :
    bsh_postprocess_list "  12\\n/31\\r/2024  ".toList =
      bsh_postprocess_spec "  12\\n/31\\r/2024  ".toList ∧
      ' ' ∉ bsh_postprocess_list "  12\\n/31\\r/2024  ".toList :=
  ⟨(C5_postprocess "  12\\n/31\\r/2024  ".toList).1,
    ((C5_postprocess "  12\\n/31\\r/2024  ".toList).2 (by decide)).1⟩

theorem le_maxScoreFrom :
    ∀ (apps : List MieleAppliance) (x : Int), x ≤ maxScoreFrom x apps
  | [], x => le_refl x
  | a :: l, x =>
    le_trans (le_max_left x a.score) (le_maxScoreFrom l (max x a.score))

theorem maxScoreFrom_attained :
    ∀ (apps : List MieleAppliance) (x : Int), x < maxScoreFrom x apps →
      ∃ a ∈ apps, a.score = maxScoreFrom x apps
  | [], x => fun h => absurd h (lt_irrefl x)
  | a :: l, x => fun h => by
    by_cases hx : max x a.score < maxScoreFrom (max x a.score) l
    · rcases maxScoreFrom_attained l (max x a.score) hx with ⟨b, hb, hs⟩
      exact ⟨b, List.mem_cons_of_mem _ hb, hs⟩
    · have heq : maxScoreFrom (max x a.score) l = max x a.score :=
        le_antisymm (not_lt.mp hx) (le_maxScoreFrom l _)
      have hM : maxScoreFrom x (a :: l) = max x a.score := heq
      have hmax : max x a.score = a.score := by
        rcases max_choice x a.score with hc | hc
        · rw [hc] at hM
          rw [hM] at h
          exact absurd h (lt_irrefl x)
        · exact hc
      exact ⟨a, List.mem_cons_self a l, by rw [hM, hmax]⟩

theorem maxScoreFrom_le :
    ∀ (apps : List MieleAppliance) (x : Int),
      (∀ a ∈ apps, a.score ≤ x) → maxScoreFrom x apps ≤ x
  | [], x => fun _ => le_refl x
  | a :: l, x => fun h => by
    have ha : a.score ≤ x := h a (List.mem_cons_self a l)
    have hstep : maxScoreFrom x (a :: l) = maxScoreFrom x l := by
      show maxScoreFrom (max x a.score) l = maxScoreFrom x l
      rw [max_eq_left ha]
    rw [hstep]
    exact maxScoreFrom_le l x fun b hb => h b (List.mem_cons_of_mem _ hb)

theorem foldl_mieleStep_eq :
    ∀ (apps : List MieleAppliance) (b : MieleAppliance),
      apps.foldl mieleStep b =
        if maxScoreFrom b.score apps ≤ b.score then b
        else (apps.find? fun a =>
          a.score == maxScoreFrom b.score apps).getD b
  | [], b => by simp [maxScoreFrom]
  | a :: l, b => by
    have hstep : (a :: l).foldl mieleStep b = l.foldl mieleStep (mieleStep b a) :=
      rfl
    have hmax : maxScoreFrom b.score (a :: l) =
        maxScoreFrom (max b.score a.score) l := rfl
    by_cases hba : b.score < a.score
    · have hsa : mieleStep b a = a := if_pos hba
      rw [hstep, hsa, foldl_mieleStep_eq l a]
      have hM : maxScoreFrom a.score l = maxScoreFrom b.score (a :: l) := by
        rw [hmax, max_eq_right (le_of_lt hba)]
      rw [hM]
      have haM : a.score ≤ maxScoreFrom b.score (a :: l) := by
        rw [← hM]
        exact le_maxScoreFrom l a.score
      have hMb : ¬ maxScoreFrom b.score (a :: l) ≤ b.score :=
        not_le.mpr (lt_of_lt_of_le hba haM)
      rw [if_neg hMb]
      by_cases hMa : maxScoreFrom b.score (a :: l) ≤ a.score
      · have hMaeq : maxScoreFrom b.score (a :: l) = a.score :=
          le_antisymm hMa haM
        rw [if_pos hMa]
        have hfind : ((a :: l).find? fun x =>
            x.score == maxScoreFrom b.score (a :: l)) = some a := by
          simp [List.find?, hMaeq]
        rw [hfind]
        rfl
      · rw [if_neg hMa]
        have hlt : a.score < maxScoreFrom b.score (a :: l) := not_le.mp hMa
        have hpa : (a.score == maxScoreFrom b.score (a :: l)) 
            = false := by
          simp only [beq_eq_false_iff_ne, ne_eq]
          exact ne_of_lt hlt
        have hfind : ((a :: l).find? fun x =>
            x.score == maxScoreFrom b.score (a :: l)) =
            (l.find? fun x => x.score == maxScoreFrom b.score (a :: l)) := by
          simp [List.find?, hpa]
        rw [hfind]
        have hattain : ∃ x ∈ l, x.score = maxScoreFrom b.score (a :: l) := by
          have : a.score < maxScoreFrom a.score l := by
            rw [hM]
            exact hlt
          rcases maxScoreFrom_attained l a.score this with ⟨x, hx, hxs⟩
          exact ⟨x, hx, by rw [hxs, hM]⟩
        rcases hattain with ⟨x, hx, hxs⟩
        have hsome : (l.find? fun y =>
            y.score == maxScoreFrom b.score (a :: l)).isSome := by
          rw [List.find?_isSome]
          exact ⟨x, hx, by simp [hxs]⟩
        rcases Option.isSome_iff_exists.mp hsome with ⟨y, hy⟩
        rw [hy]
        rfl
    · have hsa : mieleStep b a = b := if_neg hba
      rw [hstep, hsa, foldl_mieleStep_eq l b]
      have hM : maxScoreFrom b.score l = maxScoreFrom b.score (a :: l) := by
        rw [hmax, max_eq_left (not_lt.mp hba)]
      rw [hM]
      by_cases hMb : maxScoreFrom b.score (a :: l) ≤ b.score
      · rw [if_pos hMb, if_pos hMb]
      · rw [if_neg hMb, if_neg hMb]
        have hlt : a.score < maxScoreFrom b.score (a :: l) :=
          lt_of_le_of_lt (not_lt.mp hba) (not_le.mp hMb)
        have hpa : (a.score == maxScoreFrom b.score (a :: l)) = false := by
          simp only [beq_eq_false_iff_ne, ne_eq]
          exact ne_of_lt hlt
        have hfind : ((a :: l).find? fun x =>
            x.score == maxScoreFrom b.score (a :: l)) =
            (l.find? fun x => x.score == maxScoreFrom b.score (a :: l)) := by
          simp [List.find?, hpa]
        rw [hfind]

/-- C6: the best-match loop selects, among the rows, the first one in
iteration order whose score equals the maximal score, provided that
maximum exceeds the initial score 0 (comparison is strict, so ties keep
the earlier row); otherwise the initial all-empty record survives. -/
theorem C6_first_max_selected :
    ∀ apps : List MieleAppliance, mieleSelect apps = mieleSelectSpec apps := by
  intro apps
  unfold mieleSelect mieleSelectSpec
  have h := foldl_mieleStep_eq apps defaultMieleAppliance
  have hz : defaultMieleAppliance.score = (0 : Int) := rfl
  rw [hz] at h
  exact h

theorem mieleSelect_default_of_nonpos (apps : List MieleAppliance)
    (h : ∀ a ∈ apps, a.score ≤ 0) :
    mieleSelect apps = defaultMieleAppliance := by
  have hb : maxScoreFrom 0 apps ≤ 0 := maxScoreFrom_le apps 0 h
  unfold mieleSelect
  have heq := foldl_mieleStep_eq apps defaultMieleAppliance
  have hz : defaultMieleAppliance.score = (0 : Int) := rfl
  rw [hz] at heq
  rw [heq, if_pos hb]

/-- C10: the best-match accumulator starts as the all-empty record with
score 0 and is only replaced on a strictly greater score, so whenever
every parsed row's combined fuzzy score is 0 or negative, no catalog row
is selected and the adapter returns the unknown-availability message for
the empty model number. -/
theorem C10_zero_scores_default :
    ∀ (env : MieleEnv) (req : AvailabilityRequest) (wh mn d : String)
      (headerRow : List String) (dataRows : List (List String)),
      env.download = .ok () → env.fileCreate = .ok () →
      env.respBytes = .ok () → env.fileWrite = .ok () →
      env.openExcel = .ok () →
      req.warehouse = some wh → req.model_number = some mn →
      env.sheet wh = .ok (headerRow :: dataRows) →
      env.decode mn = some d →
      (∀ a ∈ dataRows.map (parseRow (mieleHeaderMap headerRow)),
        mieleCombinedScore env.fuzzy (normalizeField d) a ≤ 0) →
      miele_availability env req = .ok "Next avalability for  is unknown." := by
  intro env req wh mn d headerRow dataRows h1 h2 h3 h4 h5 hw hm hs hd hsc
  have hmsg : mieleMessage defaultMieleAppliance =
      "Next avalability for  is unknown." := by decide
  unfold miele_availability
  simp only [h1, h2, h3, h4, h5, hw, hm, hs, hd]
  cases dataRows with
  | nil => simpa using hmsg
  | cons r rs =>
    simp only [List.map_cons, hd]
    have hall : ∀ a ∈ (parseRow (mieleHeaderMap headerRow) r ::
        rs.map (parseRow (mieleHeaderMap headerRow))).map (fun a =>
          { a with score :=
            mieleCombinedScore env.fuzzy (normalizeField d) a }),
        a.score ≤ 0 := by
      intro a ha
      rcases List.mem_map.mp ha with ⟨x, hx, rfl⟩
      exact hsc x (by simpa using hx)
    have hsel := mieleSelect_default_of_nonpos _ hall
    simp only [List.map_cons] at hsel
    rw [hsel, hmsg]

theorem C10_witness :
    miele_availability mieleEnvNoMatch reqMiele =
      .ok "Next avalability for  is unknown." :=
  C10_zero_scores_default mieleEnvNoMatch reqMiele "Forest Park, IL"
    "HBLP%20651RUC" "HBLP%20651RUC"
    ["Model Number", "Next Available Date"] [["X123", ""]]
    rfl rfl rfl rfl rfl rfl rfl rfl rfl (by decide)

theorem splitOnChar_headD_takeWhile (sep : Char) :
    ∀ cs : List Char,
      (splitOnChar sep cs).headD [] = cs.takeWhile (fun c => c != sep)
  | [] => rfl
  | c :: cs => by
    by_cases hc : c = sep
    · subst hc
      simp [splitOnChar, List.takeWhile]
    · have hb : (c != sep) = true := by simp [hc]
      have ih := splitOnChar_headD_takeWhile sep cs
      simp only [splitOnChar, if_neg hc]
      cases hr : splitOnChar sep cs with
      | nil =>
        rw [hr] at ih
        simp only [List.headD] at ih
        simp [List.takeWhile, hb, ← ih]
      | cons h t =>
        rw [hr] at ih
        simp only [List.headD] at ih
        simp [List.takeWhile, hb, ← ih]

/-- C7: the model-number validation step returns exactly the segment of
the autosuggest response body before the first opening brace (the whole
body when no brace occurs), and the availability pipeline passes exactly
that validated value, in place of the request's model number, to the
add-to-cart step. -/
theorem C7_validate_model_number :
    (∀ body : String,
      firstSplitSegment '\x7b' body =
        String.mk (body.toList.takeWhile fun c => c != '\x7b')) ∧
    (∀ (env : SubZeroEnv) (mn body : String)
      (t : SubZeroJWTTokenClaims),
      headerValueOk (cookieHeader t.subzero_cookies) = true →
      env.suggest = .ok body →
      subzero_validate_model_number env mn
        (cookieHeader t.subzero_cookies) =
        firstSplitSegment '\x7b' body) ∧
    (∀ (env : SubZeroEnv) (req : AvailabilityRequest) (fuel n : Nat)
      (t : SubZeroJWTTokenClaims) (mn : String),
      (subzero_token_acquire env).1 = .tok t →
      subzero_drain env (cookieHeader t.subzero_cookies) fuel 0 =
        some (.done n) →
      req.model_number = some mn →
      subzero_availability env req fuel =
        some (.ok (subzero_add_item env
          (subzero_validate_model_number env mn
            (cookieHeader t.subzero_cookies))
          (cookieHeader t.subzero_cookies)))) := by
  refine ⟨?_, ?_, ?_⟩
  · intro body
    unfold firstSplitSegment
    rw [splitOnChar_headD_takeWhile]
  · intro env mn body t hco hsg
    unfold subzero_validate_model_number
    rw [hco]
    simp [hsg]
  · intro env req fuel n t mn hacq hdr hmn
    unfold subzero_availability
    simp only [hacq, hdr, hmn]

theorem C7_witness :
    subzero_validate_model_number szEnvDrain "BI-36U"
      (cookieHeader (⟨[]⟩ : SubZeroJWTTokenClaims).subzero_cookies) =
      firstSplitSegment '\x7b' "BI-36U\x7b\"raw\":1" :=
  C7_validate_model_number.2.1 szEnvDrain "BI-36U" "BI-36U\x7b\"raw\":1"
    ⟨[]⟩ (by decide) rfl

/-- C3: both availability functions read the cached token first (a
successful first read makes no login call); when that read fails, the
login is invoked exactly once and the cache is re-read exactly once; a
login failure aborts the resolve hard (a propagated `Err` for BSH, a
panic for SubZero), while a second cache-read failure after a completed
login is returned as a non-fatal descriptive answer string. -/
theorem C3_token_acquisition :
    (∀ env : BshEnv,
      (∀ t, env.tokenRead1 = .ok t →
        bsh_token_acquire env = (.tok t, 0, 1)) ∧
      (∀ e, env.tokenRead1 = .error e →
        (bsh_token_acquire env).2.1 = 1 ∧
        (∀ e2, env.loginResult = .error e2 →
          (bsh_token_acquire env).2.2 = 1 ∧
          bsh_availability env = .err e2) ∧
        (∀ b, env.loginResult = .ok b →
          (bsh_token_acquire env).2.2 = 2 ∧
          ∀ e3, env.tokenRead2 = .error e3 →
            bsh_availability env =
              .ok ("Faild to login to BSH website: " ++ e3)))) ∧
    (∀ env : SubZeroEnv,
      (∀ t, env.tokenRead1 = .ok t →
        subzero_token_acquire env = (.tok t, 0, 1)) ∧
      (∀ e, env.tokenRead1 = .error e →
        (subzero_token_acquire env).2.1 = 1 ∧
        (∀ m, env.loginOutcome = some m →
          (subzero_token_acquire env).2.2 = 1 ∧
          ∀ (req : AvailabilityRequest) (fuel : Nat),
            subzero_availability env req fuel = some (.panic m)) ∧
        (env.loginOutcome = none →
          (subzero_token_acquire env).2.2 = 2 ∧
          ∀ e2, env.tokenRead2 = .error e2 →
            ∀ (req : AvailabilityRequest) (fuel : Nat),
              subzero_availability env req fuel =
                some (.ok ("Failed to get SubZero token: " ++ e2))))) := by
  constructor
  · intro env
    constructor
    · intro t h1
      simp [bsh_token_acquire, h1]
    · intro e h1
      refine ⟨?_, ?_, ?_⟩
      · cases hL : env.loginResult with
        | error e2 => simp [bsh_token_acquire, h1, hL]
        | ok b =>
          cases hT2 : env.tokenRead2 with
          | ok t => simp [bsh_token_acquire, h1, hL, hT2]
          | error e3 => simp [bsh_token_acquire, h1, hL, hT2]
      · intro e2 hL
        constructor
        · simp [bsh_token_acquire, h1, hL]
        · unfold bsh_availability
          simp [bsh_token_acquire, h1, hL]
      · intro b hL
        constructor
        · cases hT2 : env.tokenRead2 with
          | ok t => simp [bsh_token_acquire, h1, hL, hT2]
          | error e3 => simp [bsh_token_acquire, h1, hL, hT2]
        · intro e3 hT2
          unfold bsh_availability
          simp [bsh_token_acquire, h1, hL, hT2]
  · intro env
    constructor
    · intro t h1
      simp [subzero_token_acquire, h1]
    · intro e h1
      refine ⟨?_, ?_, ?_⟩
      · cases hL : env.loginOutcome with
        | some m => simp [subzero_token_acquire, h1, hL]
        | none =>
          cases hT2 : env.tokenRead2 with
          | ok t => simp [subzero_token_acquire, h1, hL, hT2]
          | error e3 => simp [subzero_token_acquire, h1, hL, hT2]
      · intro m hL
        constructor
        · simp [subzero_token_acquire, h1, hL]
        · intro req fuel
          unfold subzero_availability
          simp [subzero_token_acquire, h1, hL]
      · intro hL
        constructor
        · cases hT2 : env.tokenRead2 with
          | ok t => simp [subzero_token_acquire, h1, hL, hT2]
          | error e3 => simp [subzero_token_acquire, h1, hL, hT2]
        · intro e2 hT2 req fuel
          unfold subzero_availability
          simp [subzero_token_acquire, h1, hL, hT2]

theorem C3_witness :
    bsh_availability bshEnvLoginErr = .err "bad credentials" ∧
    bsh_availability bshEnvSecondReadErr =
      .ok ("Faild to login to BSH website: " ++ "corrupt") ∧
    subzero_availability szEnvLoginPanic reqSZ 1 =
      some (.panic "called unwrap on an Err value") ∧
    subzero_availability szEnvSecondReadErr reqSZ 1 =
      some (.ok ("Failed to get SubZero token: " ++ "corrupt")) := by
  refine ⟨?_, ?_, ?_, ?_⟩
  · exact ((((C3_token_acquisition.1 bshEnvLoginErr).2 "stale" rfl).2.1
      "bad credentials" rfl).2)
  · exact (((((C3_token_acquisition.1 bshEnvSecondReadErr).2 "stale"
      rfl).2.2 true rfl).2) "corrupt" rfl)
  · exact ((((C3_token_acquisition.2 szEnvLoginPanic).2 "stale" rfl).2.1
      "called unwrap on an Err value" rfl).2 reqSZ 1)
  · exact (((((C3_token_acquisition.2 szEnvSecondReadErr).2 "stale"
      rfl).2.2 rfl).2) "corrupt" rfl reqSZ 1)

theorem bsh_simulate_stage_isOk (env : BshEnv) (c x : String) :
    ∃ s, bsh_simulate_stage env c x = .ok s := by
  unfold bsh_simulate_stage
  repeat' split
  all_goals exact ⟨_, rfl⟩

/-- C9: when the service-root GET succeeds but its response has no
x-csrf-token header, bsh_availability does not fail: it proceeds to the
simulate stage using the literal string `Failed to get x_csrf_token` as
the x-csrf-token request-header value (a value that is itself a valid
header), and the overall result is never an `Err`. -/
theorem C9_missing_csrf_header :
    ∀ (env : BshEnv) (t : BSHJWTTokenClaims),
      (bsh_token_acquire env).1 = .tok t →
      headerValueOk (cookieHeader t.bsh_cookies) = true →
      env.rootResp = .ok none →
      bsh_availability env =
        bsh_simulate_stage env (cookieHeader t.bsh_cookies)
          "Failed to get x_csrf_token" ∧
      headerValueOk "Failed to get x_csrf_token" = true ∧
      (∀ e, bsh_availability env ≠ .err e) := by
  intro env t hacq hco hroot
  have hmain : bsh_availability env =
      bsh_simulate_stage env (cookieHeader t.bsh_cookies)
        "Failed to get x_csrf_token" := by
    unfold bsh_availability
    simp [hacq, hco, hroot, bsh_x_csrf_of]
  refine ⟨hmain, by decide, ?_⟩
  intro e
  rw [hmain]
  rcases bsh_simulate_stage_isOk env (cookieHeader t.bsh_cookies)
    "Failed to get x_csrf_token" with ⟨s, hs⟩
  rw [hs]
  simp

theorem C9_witness :
    bsh_availability bshEnvNoCsrf =
      bsh_simulate_stage bshEnvNoCsrf (cookieHeader bshTokenA.bsh_cookies)
        "Failed to get x_csrf_token" ∧
      (∀ e, bsh_availability bshEnvNoCsrf ≠ .err e) := by
  have h := C9_missing_csrf_header bshEnvNoCsrf bshTokenA rfl (by decide) rfl
  exact ⟨h.1, h.2.2⟩

theorem subzero_drain_panicked_src (env : SubZeroEnv) (cookies : String) :
    ∀ (fuel k : Nat) (m : String),
      subzero_drain env cookies fuel k = some (.panicked m) →
      ∃ i e, env.removeFail i = some e ∧
        m = "Failed to remove item from cart: " ++ e
  | 0, k, m => by intro h; simp [subzero_drain] at h
  | fuel + 1, k, m => by
    intro h
    by_cases h0 : env.counts k = 0
    · simp [subzero_drain, h0] at h
    · by_cases hc : headerValueOk cookies
      · cases hr : env.removeFail k with
        | some e =>
          simp [subzero_drain, h0, hc, hr] at h
          exact ⟨k, e, hr, h.symm⟩
        | none =>
          simp only [subzero_drain, if_neg h0, if_pos hc, hr] at h
          exact subzero_drain_panicked_src env cookies fuel (k + 1) m h
      · simp only [subzero_drain, if_neg h0, if_neg hc] at h
        exact subzero_drain_panicked_src env cookies fuel (k + 1) m h

theorem subzero_token_acquire_fatal (env : SubZeroEnv) (x : String)
    (h : (subzero_token_acquire env).1 = .fatal x) :
    env.loginOutcome = some x := by
  unfold subzero_token_acquire at h
  cases hT1 : env.tokenRead1 with
  | ok t => rw [hT1] at h; simp at h
  | error e =>
    rw [hT1] at h
    cases hL : env.loginOutcome with
    | some m =>
      rw [hL] at h
      simp at h
      exact congrArg some h
    | none =>
      rw [hL] at h
      cases hT2 : env.tokenRead2 with
      | ok t => rw [hT2] at h; simp at h
      | error e2 => rw [hT2] at h; simp at h

theorem bsh_availability_tok_isOk (env : BshEnv) (t : BSHJWTTokenClaims)
    (hacq : (bsh_token_acquire env).1 = .tok t) :
    ∃ s, bsh_availability env = .ok s := by
  unfold bsh_availability
  rw [hacq]
  by_cases hc : headerValueOk (cookieHeader t.bsh_cookies)
  · cases hroot : env.rootResp with
    | error e => simp [hc, hroot]
    | ok hdr =>
      rcases bsh_simulate_stage_isOk env (cookieHeader t.bsh_cookies)
        (bsh_x_csrf_of hdr) with ⟨s, hs⟩
      simp [hc, hroot, hs]
  · simp [hc]

theorem bsh_availability_cases (env : BshEnv) :
    (∃ s, bsh_availability env = .ok s) ∨
      (∃ e1 e, env.tokenRead1 = .error e1 ∧ env.loginResult = .error e ∧
        bsh_availability env = .err e) := by
  cases hT1 : env.tokenRead1 with
  | ok t =>
    exact Or.inl (bsh_availability_tok_isOk env t
      (by simp [bsh_token_acquire, hT1]))
  | error e1 =>
    cases hL : env.loginResult with
    | error e2 =>
      refine Or.inr ⟨e1, e2, rfl, rfl, ?_⟩
      unfold bsh_availability
      rw [show (bsh_token_acquire env).1 = .fatal e2 by
        simp [bsh_token_acquire, hT1, hL]]
    | ok b =>
      cases hT2 : env.tokenRead2 with
      | ok t =>
        exact Or.inl (bsh_availability_tok_isOk env t
          (by simp [bsh_token_acquire, hT1, hL, hT2]))
      | error e3 =>
        refine Or.inl ⟨"Faild to login to BSH website: " ++ e3, ?_⟩
        unfold bsh_availability
        rw [show (bsh_token_acquire env).1 =
          .msg ("Faild to login to BSH website: " ++ e3) by
          simp [bsh_token_acquire, hT1, hL, hT2]]

theorem subzero_availability_panic_src (env : SubZeroEnv)
    (req : AvailabilityRequest) (fuel : Nat) (m : String)
    (h : subzero_availability env req fuel = some (.panic m)) :
    env.loginOutcome = some m ∨
      ∃ i e, env.removeFail i = some e ∧
        m = "Failed to remove item from cart: " ++ e := by
  unfold subzero_availability at h
  cases hacq : (subzero_token_acquire env).1 with
  | fatal x =>
    rw [hacq] at h
    simp at h
    exact Or.inl (by rw [subzero_token_acquire_fatal env x hacq, h])
  | msg s =>
    rw [hacq] at h
    simp at h
  | tok t =>
    rw [hacq] at h
    simp only at h
    cases hdr : subzero_drain env (cookieHeader t.subzero_cookies) fuel 0 with
    | none => rw [hdr] at h; simp at h
    | some dres =>
      cases dres with
      | panicked pm =>
        rw [hdr] at h
        simp at h
        rcases subzero_drain_panicked_src env _ fuel 0 pm hdr with
          ⟨i, e, hi, hpm⟩
        exact Or.inr ⟨i, e, hi, by rw [← h, hpm]⟩
      | done k =>
        rw [hdr] at h
        cases hmn : req.model_number with
        | none => rw [hmn] at h; simp at h
        | some mn => rw [hmn] at h; simp at h

theorem miele_availability_panic_src (env : MieleEnv)
    (req : AvailabilityRequest) (m : String)
    (h : miele_availability env req = .panic m) :
    (∃ e, env.download = .error e) ∨ (∃ e, env.fileCreate = .error e) ∨
      (∃ e, env.respBytes = .error e) ∨ (∃ e, env.fileWrite = .error e) ∨
      (∃ e, env.openExcel = .error e) ∨
      (∃ mn, req.model_number = some mn ∧ env.decode mn = none) := by
  unfold miele_availability at h
  cases h1 : env.download with
  | error e => exact Or.inl ⟨e, rfl⟩
  | ok u =>
    cases u
    simp only [h1] at h
    cases h2 : env.fileCreate with
    | error e => exact Or.inr (Or.inl ⟨e, rfl⟩)
    | ok u =>
      cases u
      simp only [h2] at h
      cases h3 : env.respBytes with
      | error e => exact Or.inr (Or.inr (Or.inl ⟨e, rfl⟩))
      | ok u =>
        cases u
        simp only [h3] at h
        cases h4 : env.fileWrite with
        | error e => exact Or.inr (Or.inr (Or.inr (Or.inl ⟨e, rfl⟩)))
        | ok u =>
          cases u
          simp only [h4] at h
          cases h5 : env.openExcel with
          | error e =>
            exact Or.inr (Or.inr (Or.inr (Or.inr (Or.inl ⟨e, rfl⟩))))
          | ok u =>
            cases u
            simp only [h5] at h
            cases hw : req.warehouse with
            | none => simp [hw] at h
            | some wh =>
              simp only [hw] at h
              cases hmn : req.model_number with
              | none => simp [hmn] at h
              | some mn =>
                simp only [hmn] at h
                cases hs : env.sheet wh with
                | error err => simp [hs] at h
                | ok allRows =>
                  simp only [hs] at h
                  cases allRows with
                  | nil => simp at h
                  | cons headerRow dataRows =>
                    cases dataRows with
                    | nil => simp at h
                    | cons r rs =>
                      simp only [List.map_cons] at h
                      cases hd : env.decode mn with
                      | none =>
                        exact Or.inr (Or.inr (Or.inr (Or.inr (Or.inr
                          ⟨mn, rfl, hd⟩))))
                      | some decoded => simp [hd] at h

/-- C1 (amended): after authentication, transport, parse and not-found
failures are converted into descriptive result strings, with these
exceptions forced by the source: BSH never panics and its only hard
error is a failed login after a failed cache read; a SubZero panic can
only come from the login call or from a delete POST whose transport
failed (subzero_remove_item); a Miele panic can only come from the
spreadsheet download, file creation, body read, file write or workbook
open steps, or from a failing URL-decode of the model number. -/
theorem C1_panic_policy :
    (∀ env : BshEnv,
      (∀ m, bsh_availability env ≠ .panic m) ∧
      (∀ e, bsh_availability env = .err e →
        (∃ e1, env.tokenRead1 = .error e1) ∧
          env.loginResult = .error e)) ∧
    (∀ (env : SubZeroEnv) (req : AvailabilityRequest) (fuel : Nat)
      (m : String),
      subzero_availability env req fuel = some (.panic m) →
      env.loginOutcome = some m ∨
        ∃ i e, env.removeFail i = some e ∧
          m = "Failed to remove item from cart: " ++ e) ∧
    (∀ (env : MieleEnv) (req : AvailabilityRequest) (m : String),
      miele_availability env req = .panic m →
      (∃ e, env.download = .error e) ∨ (∃ e, env.fileCreate = .error e) ∨
        (∃ e, env.respBytes = .error e) ∨
        (∃ e, env.fileWrite = .error e) ∨
        (∃ e, env.openExcel = .error e) ∨
        (∃ mn, req.model_number = some mn ∧ env.decode mn = none)) := by
  refine ⟨?_, subzero_availability_panic_src, miele_availability_panic_src⟩
  intro env
  constructor
  · intro m hpm
    rcases bsh_availability_cases env with ⟨s, hs⟩ | ⟨e1, e, _, _, hs⟩
    · rw [hs] at hpm
      exact RRes.noConfusion hpm
    · rw [hs] at hpm
      exact RRes.noConfusion hpm
  · intro e he
    rcases bsh_availability_cases env with ⟨s, hs⟩ | ⟨e1, e2, hT1, hL, hs⟩
    · rw [hs] at he
      exact RRes.noConfusion he
    · rw [hs] at he
      have : e2 = e := by
        injection he
      exact ⟨⟨e1, hT1⟩, this ▸ hL⟩

/-- C1 counterexample: after a successful token read (authentication
done), a cart stuck at one item and a delete POST whose transport fails
make subzero_availability panic instead of returning a descriptive
result string, refuting the claim that no post-authentication transport
failure aborts the call by panicking. -/
theorem C1_counterexample :
    subzero_availability szEnvRemovePanics reqSZ 5 =
      some (.panic ("Failed to remove item from cart: " ++
        "connection reset")) := rfl

theorem C1_witness :
    (∃ e1, bshEnvLoginErr.tokenRead1 = .error e1) ∧
      bshEnvLoginErr.loginResult = .error "bad credentials" :=
  (C1_panic_policy.1 bshEnvLoginErr).2 "bad credentials" rfl
